import Mathlib

/-!
Verification development for `src/bot.py` (SocialMediaBoostOrder), a Telegram
order-taking bot for a social-media boosting service.

The embedding models the persistent SQLite state (tables `submissions`,
`platforms`, `admins`, plus the in-memory `pricing` dict) and every handler
that mutates or reads it.  One point of the schema is load-bearing for the
model: the source writes `user_id INTEGER PRIMARY_KEY` (and likewise
`name TEXT PRIMARY_KEY`) — with an underscore — which SQLite parses as a
column *type* named `PRIMARY_KEY`, so none of the three tables actually has a
primary-key or uniqueness constraint.  Tables are therefore modelled as plain
lists of rows: `INSERT` appends (also under `INSERT OR IGNORE`, which has no
constraint to defer to), `UPDATE ... WHERE` rewrites every matching row, and
`DELETE ... WHERE` drops every matching row.  `fetchone()` is `List.find?`.

Outbound traffic (replies, direct sends, photo sends, callback answers) is
modelled as a list of `Out` values returned next to the new state.  Message
texts are condensed to their distinguishing content (markdown and emoji
dropped); what matters for the claims is which message is produced, to whom,
and with which callback buttons.
-/

namespace Boost

/-- One row of the `submissions` table (`init_db`).  `status` defaults to
`"pending"` and `payment_notified` to `0`, as in the schema. -/
structure Row where
  user_id : Int
  platform : Option String := none
  account_id : Option String := none
  package : Option String := none
  photo_path : Option String := none
  payment_screenshot_path : Option String := none
  status : String := "pending"
  payment_notified : Nat := 0
deriving DecidableEq, Repr

/-- The persistent state: the three SQLite tables plus the module-level
`pricing` dict (package key, price, payment link).  `platforms` rows are
(name, active) where active is the stored INTEGER; `admins` rows are
(user_id, added_by). -/
structure DB where
  submissions : List Row
  platforms : List (String × Nat)
  admins : List (Int × Option Int)
  pricing : List (String × Nat × String)
deriving DecidableEq, Repr

/-- Configuration read at startup: `INITIAL_ADMIN_ID` from the environment,
plus (for modelling transport behaviour in the admin fan-out) the set of
admin chat ids to which delivery raises an exception. -/
structure Cfg where
  initialAdmin : Int
  failingAdmins : List Int
deriving DecidableEq, Repr

/-- One outbound effect.  `reply` answers in the chat of the inbound event;
`send`/`sendPhoto` are `context.bot.send_message` / `send_photo` to an
explicit chat id; `answer` is `query.answer`; `errNotice` is the generic
message produced by `error_handler` when a handler raises. -/
inductive Out where
  | reply (text : String) (buttons : List String)
  | replyPhoto (photo : String)
  | send (chat : Int) (text : String) (buttons : List String)
  | sendPhoto (chat : Int) (photo : String) (buttons : List String)
  | answer (text : String)
  | errNotice (chat : Int)
deriving DecidableEq, Repr

/-! ## Python-semantics helpers -/

/-- Python truthiness of a nullable TEXT column value: `None` and `""` are
falsy, every other string is truthy. -/
def truthy : Option String → Bool
  | none => false
  | some s => !(s == "")

/-- Python `str.isdigit` restricted to ASCII (all arguments in the source are
ASCII command arguments): nonempty and all digits. -/
def pyIsDigit (s : String) : Bool :=
  !(s == "") && s.toList.all Char.isDigit

/-- Decimal value of a digit string (base-10 left fold). -/
def digitsToNat (l : List Char) : Nat :=
  l.foldl (fun n c => n * 10 + (c.toNat - 48)) 0

/-- Python `int(s)` under an `isdigit` guard. -/
def pyInt (s : String) : Int :=
  (digitsToNat s.toList : Nat)

/-- Python `sep.join(parts)`. -/
def pyJoin (sep : String) : List String → String
  | [] => ""
  | [x] => x
  | x :: y :: xs => x ++ sep ++ pyJoin sep (y :: xs)

/-- Bool test whether `pat` is an initial segment of `s`. -/
def listStartsWith : List Char → List Char → Bool
  | [], _ => true
  | _ :: _, [] => false
  | p :: ps, c :: cs => p == c && listStartsWith ps cs

/-- Fueled worker for Python `str.replace` (left-to-right, non-overlapping).
The fuel is the length of the subject, which bounds the number of steps. -/
def replAux (pat rep : List Char) : Nat → List Char → List Char
  | _, [] => []
  | 0, s => s
  | fuel + 1, c :: cs =>
    if !(pat.isEmpty) && listStartsWith pat (c :: cs) then
      rep ++ replAux pat rep fuel (List.drop pat.length (c :: cs))
    else
      c :: replAux pat rep fuel cs

/-- Python `s.replace(pat, rep)` (all source uses have a nonempty pattern). -/
def pyReplace (s pat rep : String) : String :=
  String.mk (replAux pat.toList rep.toList s.length s.toList)

/-- Python `s.lower()` restricted to ASCII letters. -/
def pyLower (s : String) : String :=
  String.mk (s.toList.map Char.toLower)

/-! ## Store helpers (SQL statements over the list model) -/

/-- `SELECT ... FROM submissions WHERE user_id = ?` with `fetchone()`. -/
def findRow (db : DB) (u : Int) : Option Row :=
  db.submissions.find? (fun r => r.user_id == u)

/-- `UPDATE submissions SET ... WHERE user_id = ?`: rewrite every matching
row with `g`. -/
def updRows (db : DB) (u : Int) (g : Row → Row) : DB :=
  { db with submissions := db.submissions.map (fun r => if r.user_id == u then g r else r) }

/-- `DELETE FROM submissions WHERE user_id = ?`. -/
def delRows (db : DB) (u : Int) : DB :=
  { db with submissions := db.submissions.filter (fun r => !(r.user_id == u)) }

/-- `get_all_admins()`: the user ids of every `admins` row, in table order. -/
def adminIds (db : DB) : List Int :=
  db.admins.map (fun a => a.1)

/-- `is_admin(user_id)`. -/
def isAdminB (db : DB) (u : Int) : Bool :=
  db.admins.any (fun a => a.1 == u)

/-- Active platform names as produced by `load_platforms()` filtering on the
active flag (`bool(row[1])` is true iff the stored INTEGER is nonzero). -/
def activePlatforms (db : DB) : List String :=
  (db.platforms.filter (fun p => !(p.2 == 0))).map (fun p => p.1)

/-- `pricing[key]` lookup. -/
def pricingLookup (db : DB) (key : String) : Option (Nat × String) :=
  (db.pricing.find? (fun kv => kv.1 == key)).map (fun kv => kv.2)

/-! ## Callback payloads and image paths -/

def startOrderData : String := "start_order"
def cancelOrderData : String := "cancel_order"
def keepOrderData : String := "keep_order"
def enterLinkData : String := "enter_link_prompt"
def uploadScreenshotData : String := "upload_screenshot_prompt"
def uploadPaymentData : String := "upload_payment_prompt"
def confirmCancelData (u : Int) : String := "confirm_cancel_" ++ toString u
def approveData (u : Int) : String := "approve_" ++ toString u
def rejectData (u : Int) : String := "reject_" ++ toString u
def packageData (k : String) : String := "package_" ++ k

/-- Payload of a platform-selection button as built by `start`:
`f"platform_(active_platforms[i].lower().replace(' ', '_'))"`. -/
def platformBtnData (name : String) : String :=
  "platform_" ++ pyReplace (pyLower name) " " "_"

/-- Recovery of a platform name from a pressed platform button in
`handle_button`: `data.replace("platform_", "").replace("_", " ")`. -/
def payloadToPlatform (data : String) : String :=
  pyReplace (pyReplace data "platform_" "") "_" " "

/-- `os.path.join(IMAGES_DIR, f"(user_id)_account.jpg")`. -/
def accountPhotoPath (uid : Int) : String :=
  "user_images/" ++ toString uid ++ "_account.jpg"

/-- `os.path.join(IMAGES_DIR, f"(user_id)_payment.jpg")`. -/
def paymentPhotoPath (uid : Int) : String :=
  "user_images/" ++ toString uid ++ "_payment.jpg"

/-! ## Message texts (condensed to their distinguishing content) -/

def selectPlatformFirstMsg : String := "Please select a platform first! Use /start to begin."
def completeStepsMsg : String := "Please complete the previous steps first! Use /start to begin."
def linkSavedMsg : String := "Link saved! Step 3: Please upload a screenshot of your current account:"
def screenshotReceivedMsg : String := "Screenshot received! Step 4: Select your SocPeak package below:"
def paymentAckMsg : String := "Payment screenshot received! Your order is under review."
def alreadySubmittedMsg : String := "Order already submitted or under review! Please wait for admin approval or start over:"
def welcomeMsg : String := "Welcome to SocPeak Boost Bot! Step 1: Select Your Platform"
def noPlatformsMsg : String := "No platforms available yet! Please contact an admin to add platforms."
def cancelConfirmMsg : String := "Are you sure you want to cancel your order?"
def cancelledMsg : String := "Order cancelled! Start again with /start."
def keepMsg : String := "Order kept! Continue where you left off."
def enterLinkMsg : String := "Please send the link you want to BOOST:"
def uploadScreenshotMsg : String := "Please upload a screenshot of your current account:"
def uploadPaymentMsg : String := "Please upload a screenshot of your payment confirmation:"
def packageSelectedAnswer : String := "Package selected!"
def accessDeniedMsg : String := "Access denied!"
def cannotRemoveInitialMsg : String := "Cannot remove the initial admin!"
def helpMsg : String := "Welcome to SocPeak Boost Bot! Use the buttons below to proceed:"
def adminPanelMsg : String := "Admin Control Panel. Select an option below:"
def noSubmissionsMsg : String := "No submissions yet!"
def rejectedUserMsg : String := "Payment Rejected! Your payment screenshot was not approved. Please try again or contact support@socpeak.com."

def platformSavedMsg (p : String) : String :=
  "Platform " ++ p ++ " saved! Step 2: Please send the link you want to BOOST:"

def orderSummaryMsg (platform : Option String) (key : String) (price : Nat) (link : String) : String :=
  "Order Summary. Platform " ++ platform.getD "None" ++ " Package " ++ key ++
    " SocPeak Price " ++ toString price ++ " USD. Complete your payment here: " ++ link

/-- The review message sent to each admin in `handle_photo`. -/
def adminReviewMsg (uid : Int) (r : Row) : String :=
  "New Payment Submission. User ID " ++ toString uid ++ " Platform " ++ r.platform.getD "None" ++
    " Account ID " ++ r.account_id.getD "None" ++ " Package " ++ r.package.getD "None" ++
    " SocPeak. Please review the payment screenshot:"

def approvedUserMsg (platform package : Option String) : String :=
  "Payment Approved! Your " ++ package.getD "None" ++ " SocPeak boost for " ++
    platform.getD "None" ++ " is now being processed."

def approveAckMsg (t : Int) : String := "Approved payment for User ID " ++ toString t ++ "!"
def rejectAckMsg (t : Int) : String := "Rejected payment for User ID " ++ toString t ++ "!"

def submissionDetailMsg (r : Row) : String :=
  "Submission Details. User ID " ++ toString r.user_id ++ " Platform " ++ r.platform.getD "None" ++
    " Account ID " ++ r.account_id.getD "None" ++ " Status " ++ r.status

def usageMsg (s : String) : String := "Usage: " ++ s
def notFoundMsg (s : String) : String := s ++ " not found!"

/-! ## Handlers -/

/-- `start`: unconditionally deletes the caller's submissions rows, reloads
the platform catalog and shows either the platform keyboard or the
no-platforms notice (sent to the caller's chat). -/
def start (db : DB) (uid : Int) : DB × List Out :=
  let db1 := delRows db uid
  let act := activePlatforms db1
  if act.isEmpty then
    (db1, [Out.send uid noPlatformsMsg []])
  else
    (db1, [Out.send uid welcomeMsg (act.map platformBtnData)])

/-- `cancel`: no state change; shows the two-step confirmation keyboard whose
confirm payload embeds the caller's own user id. -/
def cancel (db : DB) (uid : Int) : DB × List Out :=
  (db, [Out.reply cancelConfirmMsg [confirmCancelData uid, keepOrderData]])

/-- `handle_text`: stores the stripped text as `account_id` iff the caller
has a row whose `platform` is truthy and whose `account_id` is falsy
(`result and result[0] and not result[1]`); otherwise replies with the
select-a-platform-first notice and changes nothing. -/
def handle_text (db : DB) (uid : Int) (body : String) : DB × List Out :=
  let text := body.trim
  let result := findRow db uid
  if (match result with
      | some r => truthy r.platform && !truthy r.account_id
      | none => false) then
    (updRows db uid (fun x => { x with account_id := some text }),
     [Out.reply linkSavedMsg [uploadScreenshotData]])
  else
    (db, [Out.reply selectPlatformFirstMsg []])

/-- The admin fan-out loop of `handle_photo` (`for admin_id in
get_all_admins(): send_message; send_photo`).  The loop body has no
try/except, so the first admin in `fails` raises and aborts the loop; the
Bool result records whether the loop ran to completion. -/
def fanOutOuts (fails : List Int) (msg ppath : String) (btns : List String) :
    List Int → List Out × Bool
  | [] => ([], true)
  | a :: rest =>
    if fails.contains a then ([], false)
    else
      let p := fanOutOuts fails msg ppath btns rest
      (Out.send a msg [] :: Out.sendPhoto a ppath btns :: p.1, p.2)

/-- `handle_photo`.  Guard structure of the source: reject when no row or
`account_id` is NULL; account-screenshot branch when `package` is NULL;
payment branch when `package` is truthy, `payment_screenshot_path` is NULL
and `payment_notified == 0` (the DB commit happens before the fan-out, so a
fan-out failure does not undo it and `error_handler` notifies the user);
otherwise the already-submitted restart prompt. -/
def handle_photo (cfg : Cfg) (db : DB) (uid : Int) : DB × List Out :=
  match findRow db uid with
  | none => (db, [Out.reply completeStepsMsg []])
  | some r =>
    if r.account_id = none then
      (db, [Out.reply completeStepsMsg []])
    else if r.package = none then
      (updRows db uid (fun x => { x with photo_path := some (accountPhotoPath uid) }),
       [Out.reply screenshotReceivedMsg
         (db.pricing.map (fun kv => packageData kv.1) ++ [cancelOrderData])])
    else if truthy r.package && r.payment_screenshot_path = none && r.payment_notified == 0 then
      let db1 := updRows db uid (fun x =>
        { x with payment_screenshot_path := some (paymentPhotoPath uid), payment_notified := 1 })
      -- get_all_admins() runs after the commit; the commit does not touch the
      -- admins table, so the registry read is that of the incoming state.
      let fo := fanOutOuts cfg.failingAdmins (adminReviewMsg uid r) (paymentPhotoPath uid)
        [approveData uid, rejectData uid] (adminIds db)
      (db1, Out.reply paymentAckMsg [] :: fo.1 ++ (if fo.2 then [] else [Out.errNotice uid]))
    else
      (db, [Out.reply alreadySubmittedMsg [startOrderData]])

/-- Parsed callback payloads handled by `handle_button`.  `platform` keeps
the raw callback-data string because the name transform is observable;
`confirm_cancel`, `approve` and `reject` carry the integer parsed from
`data.split("_")`; `package` carries `data.split("_")[1]`. -/
inductive CbData where
  | start_order
  | cancel_order
  | keep_order
  | confirm_cancel (target : Int)
  | platformBtn (data : String)
  | enter_link_prompt
  | upload_screenshot_prompt
  | packageBtn (key : String)
  | upload_payment_prompt
  | approve (target : Int)
  | reject (target : Int)
  | adminPanelBtn (which : String)
deriving DecidableEq, Repr

/-- Outputs of the `admin_view` panel branch (photo re-uploads, which depend
on `os.path.exists`, are not modelled; only the per-submission review
messages with their approve/reject buttons are). -/
def adminViewOuts (db : DB) : List Out :=
  if db.submissions.isEmpty then [Out.reply noSubmissionsMsg []]
  else db.submissions.map (fun r =>
    Out.reply (submissionDetailMsg r) [approveData r.user_id, rejectData r.user_id])

/-- `handle_button`.  Faithful to the elif chain of the source; in
particular an `approve_`/`reject_`/`admin_` payload pressed by a caller who
is not an admin matches no branch at all, so nothing is sent (not even
`query.answer`) and nothing changes.  The `cancel_order` branch calls
`cancel`, which dereferences `update.message.from_user` — `None` on a
callback update — so it raises and only the generic error notice goes out. -/
def handle_button (db : DB) (uid : Int) : CbData → DB × List Out
  | .start_order =>
    let s := start db uid
    (s.1, s.2 ++ [Out.answer ""])
  | .cancel_order =>
    (db, [Out.errNotice uid])
  | .confirm_cancel target =>
    if uid == target then
      (delRows db uid, [Out.reply cancelledMsg [], Out.answer ""])
    else
      (db, [Out.answer ""])
  | .keep_order => (db, [Out.reply keepMsg [], Out.answer ""])
  | .platformBtn data =>
    let p := payloadToPlatform data
    ({ db with submissions := db.submissions ++ [{ user_id := uid, platform := some p }] },
     [Out.reply (platformSavedMsg p) [enterLinkData], Out.answer ""])
  | .enter_link_prompt => (db, [Out.reply enterLinkMsg [], Out.answer ""])
  | .upload_screenshot_prompt => (db, [Out.reply uploadScreenshotMsg [], Out.answer ""])
  | .packageBtn key =>
    if db.pricing.any (fun kv => kv.1 == key) then
      let db1 := updRows db uid (fun x => { x with package := some key })
      match findRow db1 uid with
      | none => (db1, [Out.errNotice uid])
      | some r1 =>
        let pl := (pricingLookup db key).getD (0, "")
        (db1, [Out.reply (orderSummaryMsg r1.platform key pl.1 pl.2) [uploadPaymentData],
               Out.answer packageSelectedAnswer])
    else
      (db, [])
  | .upload_payment_prompt => (db, [Out.reply uploadPaymentMsg [], Out.answer ""])
  | .approve target =>
    if isAdminB db uid then
      let db1 := updRows db target (fun x => { x with status := "approved" })
      match findRow db1 target with
      | none => (db1, [Out.errNotice uid])
      | some r1 =>
        (db1, [Out.send target (approvedUserMsg r1.platform r1.package) [startOrderData],
               Out.reply (approveAckMsg target) [], Out.answer ""])
    else
      (db, [])
  | .reject target =>
    if isAdminB db uid then
      (updRows db target (fun x => { x with status := "rejected" }),
       [Out.send target rejectedUserMsg [startOrderData, startOrderData],
        Out.reply (rejectAckMsg target) [], Out.answer ""])
    else
      (db, [])
  | .adminPanelBtn w =>
    if isAdminB db uid then
      if w == "admin_view" then (db, adminViewOuts db ++ [Out.answer ""])
      else (db, [Out.reply (usageMsg w) [], Out.answer ""])
    else
      (db, [])

/-! ## Admin commands -/

def admin_panel (db : DB) (uid : Int) : DB × List Out :=
  if isAdminB db uid then (db, [Out.reply adminPanelMsg []])
  else (db, [Out.reply accessDeniedMsg []])

def add_price (db : DB) (uid : Int) (args : List String) : DB × List Out :=
  if !(isAdminB db uid) then (db, [Out.reply accessDeniedMsg []])
  else if args.length < 3 || !(pyIsDigit (args.getD 0 "")) || !(pyIsDigit (args.getD 1 "")) then
    (db, [Out.reply (usageMsg "/add_price") []])
  else
    let key := args.getD 0 ""
    if db.pricing.any (fun kv => kv.1 == key) then
      (db, [Out.reply ("Package " ++ key ++ " already exists!") []])
    else
      ({ db with pricing := db.pricing ++
          [(key, digitsToNat (args.getD 1 "").toList, pyJoin " " (args.drop 2))] },
       [Out.reply ("Added: " ++ key) []])

def edit_price (db : DB) (uid : Int) (args : List String) : DB × List Out :=
  if !(isAdminB db uid) then (db, [Out.reply accessDeniedMsg []])
  else if args.length < 4 || !(pyIsDigit (args.getD 1 "")) || !(pyIsDigit (args.getD 2 "")) then
    (db, [Out.reply (usageMsg "/edit_price") []])
  else
    let oldK := args.getD 0 ""
    let newK := args.getD 1 ""
    if !(db.pricing.any (fun kv => kv.1 == oldK)) then
      (db, [Out.reply (notFoundMsg ("Package " ++ oldK)) []])
    else if !(oldK == newK) && db.pricing.any (fun kv => kv.1 == newK) then
      (db, [Out.reply ("Package " ++ newK ++ " already exists!") []])
    else
      ({ db with pricing := (db.pricing.filter (fun kv => !(kv.1 == oldK))) ++
          [(newK, digitsToNat (args.getD 2 "").toList, pyJoin " " (args.drop 3))] },
       [Out.reply ("Updated: " ++ oldK) []])

def delete_price (db : DB) (uid : Int) (args : List String) : DB × List Out :=
  if !(isAdminB db uid) then (db, [Out.reply accessDeniedMsg []])
  else if !(args.length == 1) || !(db.pricing.any (fun kv => kv.1 == args.getD 0 "")) then
    (db, [Out.reply (usageMsg "/delete_price") []])
  else
    ({ db with pricing := db.pricing.filter (fun kv => !(kv.1 == args.getD 0 "")) },
     [Out.reply ("Deleted: " ++ args.getD 0 "") []])

def update_qr (db : DB) (uid : Int) (args : List String) : DB × List Out :=
  if !(isAdminB db uid) then (db, [Out.reply accessDeniedMsg []])
  else if !(args.length == 1) then (db, [Out.reply (usageMsg "/update_qr") []])
  else (db, [Out.reply ("QR code updated: " ++ args.getD 0 "") []])

def toggle_platform (db : DB) (uid : Int) (args : List String) : DB × List Out :=
  if !(isAdminB db uid) then (db, [Out.reply accessDeniedMsg []])
  else if args.length < 2 ||
      !(pyLower (args.getLastD "") == "on" || pyLower (args.getLastD "") == "off") then
    (db, [Out.reply (usageMsg "/toggle_platform") []])
  else
    let name := pyJoin " " args.dropLast
    let bit : Nat := if pyLower (args.getLastD "") == "on" then 1 else 0
    ({ db with platforms := db.platforms.map (fun p => if p.1 == name then (p.1, bit) else p) },
     [Out.reply ("Platform " ++ name ++ " toggled") []])

/-- `add_platform`: `INSERT OR IGNORE INTO platforms` — the table has no
uniqueness constraint (see the header note), so the row is always
appended. -/
def add_platform (db : DB) (uid : Int) (args : List String) : DB × List Out :=
  if !(isAdminB db uid) then (db, [Out.reply accessDeniedMsg []])
  else if args.isEmpty || args.length > 3 then
    (db, [Out.reply (usageMsg "/add_platform") []])
  else
    let name := pyJoin " " args
    ({ db with platforms := db.platforms ++ [(name, 1)] },
     [Out.reply ("Added platform: " ++ name) []])

/-- `edit_platform`: renames every catalog row named `old` and, only when at
least one catalog row matched (`rowcount` nonzero), cascades the rename to
every submissions row whose `platform` equals `old` exactly. -/
def edit_platform (db : DB) (uid : Int) (args : List String) : DB × List Out :=
  if !(isAdminB db uid) then (db, [Out.reply accessDeniedMsg []])
  else if args.length < 2 then (db, [Out.reply (usageMsg "/edit_platform") []])
  else
    let oldN := pyJoin " " args.dropLast
    let newN := args.getLastD ""
    if (db.platforms.filter (fun p => p.1 == oldN)).isEmpty then
      (db, [Out.reply (notFoundMsg ("Platform " ++ oldN)) []])
    else
      ({ db with
          platforms := db.platforms.map (fun p => if p.1 == oldN then (newN, p.2) else p),
          submissions := db.submissions.map (fun r =>
            if r.platform == some oldN then { r with platform := some newN } else r) },
       [Out.reply ("Edited platform: " ++ oldN ++ " to " ++ newN) []])

/-- `delete_platform`: deletes every catalog row named `name` and, only when
at least one matched, deletes every submissions row whose `platform` equals
`name` exactly. -/
def delete_platform (db : DB) (uid : Int) (args : List String) : DB × List Out :=
  if !(isAdminB db uid) then (db, [Out.reply accessDeniedMsg []])
  else if args.isEmpty then (db, [Out.reply (usageMsg "/delete_platform") []])
  else
    let name := pyJoin " " args
    if (db.platforms.filter (fun p => p.1 == name)).isEmpty then
      (db, [Out.reply (notFoundMsg ("Platform " ++ name)) []])
    else
      ({ db with
          platforms := db.platforms.filter (fun p => !(p.1 == name)),
          submissions := db.submissions.filter (fun r => !(r.platform == some name)) },
       [Out.reply ("Deleted platform: " ++ name) []])

/-- `add_admin`: `INSERT OR IGNORE INTO admins` — no uniqueness constraint,
so the row is always appended. -/
def add_admin (db : DB) (uid : Int) (args : List String) : DB × List Out :=
  if !(isAdminB db uid) then (db, [Out.reply accessDeniedMsg []])
  else if !(args.length == 1) || !(pyIsDigit (args.getD 0 "")) then
    (db, [Out.reply (usageMsg "/add_admin") []])
  else
    let newId := pyInt (args.getD 0 "")
    ({ db with admins := db.admins ++ [(newId, some uid)] },
     [Out.reply ("Added new admin: User ID " ++ toString newId) []])

/-- `remove_admin`: refuses the initial admin id before touching the table;
otherwise deletes every `admins` row with the target id (reporting
not-an-admin when none matched). -/
def remove_admin (cfg : Cfg) (db : DB) (uid : Int) (args : List String) : DB × List Out :=
  if !(isAdminB db uid) then (db, [Out.reply accessDeniedMsg []])
  else if !(args.length == 1) || !(pyIsDigit (args.getD 0 "")) then
    (db, [Out.reply (usageMsg "/remove_admin") []])
  else
    let target := pyInt (args.getD 0 "")
    if target == cfg.initialAdmin then
      (db, [Out.reply cannotRemoveInitialMsg []])
    else if (db.admins.filter (fun a => a.1 == target)).isEmpty then
      (db, [Out.reply ("User ID " ++ toString target ++ " is not an admin!") []])
    else
      ({ db with admins := db.admins.filter (fun a => !(a.1 == target)) },
       [Out.reply ("Removed admin: User ID " ++ toString target) []])

/-! ## The event surface -/

/-- One inbound event, covering every handler registered in `main()`.  The
command constructors carry `context.args` as the list of whitespace-split
argument words. -/
inductive Ev where
  | cmd_start (uid : Int)
  | cmd_help (uid : Int)
  | cmd_cancel (uid : Int)
  | text (uid : Int) (body : String)
  | photo (uid : Int)
  | button (uid : Int) (data : CbData)
  | cmd_admin (uid : Int)
  | cmd_add_price (uid : Int) (args : List String)
  | cmd_edit_price (uid : Int) (args : List String)
  | cmd_delete_price (uid : Int) (args : List String)
  | cmd_update_qr (uid : Int) (args : List String)
  | cmd_toggle_platform (uid : Int) (args : List String)
  | cmd_add_platform (uid : Int) (args : List String)
  | cmd_edit_platform (uid : Int) (args : List String)
  | cmd_delete_platform (uid : Int) (args : List String)
  | cmd_add_admin (uid : Int) (args : List String)
  | cmd_remove_admin (uid : Int) (args : List String)
deriving DecidableEq, Repr

/-- One event-processing step of the bot: dispatch exactly as `main()`
registers the handlers. -/
def step (cfg : Cfg) (ev : Ev) (db : DB) : DB × List Out :=
  match ev with
  | .cmd_start uid => start db uid
  | .cmd_help _ => (db, [Out.reply helpMsg [startOrderData, cancelOrderData]])
  | .cmd_cancel uid => cancel db uid
  | .text uid body => handle_text db uid body
  | .photo uid => handle_photo cfg db uid
  | .button uid d => handle_button db uid d
  | .cmd_admin uid => admin_panel db uid
  | .cmd_add_price uid args => add_price db uid args
  | .cmd_edit_price uid args => edit_price db uid args
  | .cmd_delete_price uid args => delete_price db uid args
  | .cmd_update_qr uid args => update_qr db uid args
  | .cmd_toggle_platform uid args => toggle_platform db uid args
  | .cmd_add_platform uid args => add_platform db uid args
  | .cmd_edit_platform uid args => edit_platform db uid args
  | .cmd_delete_platform uid args => delete_platform db uid args
  | .cmd_add_admin uid args => add_admin db uid args
  | .cmd_remove_admin uid args => remove_admin cfg db uid args

/-- The initial `pricing` dict of the module. -/
def initPricing : List (String × Nat × String) :=
  [("500", 29, "https://www.paypal.com/ncp/payment/TU4RSPCQYUWKJ"),
   ("1000", 49, "https://www.paypal.com/ncp/payment/8PGZ73P6UYPGY"),
   ("3000", 99, "https://www.paypal.com/ncp/payment/AQUTD44LAPXHA"),
   ("5000", 149, "https://www.paypal.com/ncp/payment/L37GZY752UVLY")]

/-- The state after `init_db()` on a fresh database: empty tables except for
the seeded initial admin, plus the initial pricing dict. -/
def initDB (cfg : Cfg) : DB :=
  { submissions := [], platforms := [], admins := [(cfg.initialAdmin, none)],
    pricing := initPricing }

/-- States reachable from a fresh start of the bot. -/
inductive Reach (cfg : Cfg) : DB → Prop
  | init : Reach cfg (initDB cfg)
  | next : ∀ ev db, Reach cfg db → Reach cfg (step cfg ev db).1

/-- Run a list of events from a state, keeping only the final state. -/
def run (cfg : Cfg) (evs : List Ev) (db : DB) : DB :=
  evs.foldl (fun d e => (step cfg e d).1) db

/-- Iterate the photo-message handler `n` times for user `u`, keeping states. -/
def iterPhoto (cfg : Cfg) (u : Int) : Nat → DB → DB
  | 0, d => d
  | n + 1, d => iterPhoto cfg u n (step cfg (Ev.photo u) d).1

/-! ## Invariants and observation helpers -/

/-- The spec's left-to-right population invariant of one Order Record:
platform before account_id before account_photo_ref (photo_path) before
package before payment_photo_ref (payment_screenshot_path). -/
def rowLeftToRight (r : Row) : Prop :=
  (r.account_id.isSome = true → r.platform.isSome = true) ∧
  (r.photo_path.isSome = true → r.account_id.isSome = true) ∧
  (r.package.isSome = true → r.photo_path.isSome = true) ∧
  (r.payment_screenshot_path.isSome = true → r.package.isSome = true)

/-- The per-row ordering the code actually maintains: every row carries a
platform from its creation, a photo requires a stored account id, and a
payment screenshot requires both a package and an account id.  (The edge
"package only after account photo" is absent: the package button writes
unconditionally.) -/
def rowWF (r : Row) : Prop :=
  r.platform.isSome = true ∧
  (r.photo_path.isSome = true → r.account_id.isSome = true) ∧
  (r.payment_screenshot_path.isSome = true →
    r.package.isSome = true ∧ r.account_id.isSome = true)

/-- At most one submissions row per user id (what a real `PRIMARY KEY` on
`user_id` would enforce). -/
def atMostOne (db : DB) : Prop :=
  (db.submissions.map (fun r => r.user_id)).Nodup

/-- The chat ids receiving a `bot.send_message` text, in emission order
(photo sends, replies, callback answers and error notices excluded). -/
def sendTargets (outs : List Out) : List Int :=
  outs.filterMap (fun o => match o with | Out.send c _ _ => some c | _ => none)

instance (r : Row) : Decidable (rowLeftToRight r) := by
  unfold rowLeftToRight; infer_instance

instance (r : Row) : Decidable (rowWF r) := by
  unfold rowWF; infer_instance

instance (db : DB) : Decidable (atMostOne db) := by
  unfold atMostOne; infer_instance

/-! ## Helper lemmas -/

theorem isSome_of_truthy {o : Option String} (h : truthy o = true) : o.isSome = true := by
  cases o <;> simp_all [truthy]

theorem truthy_isSome {o : Option String} (hs : o.isSome = true)
    (hne : o ≠ some "") : truthy o = true := by
  cases o with
  | none => simp at hs
  | some s =>
    simp only [truthy, Bool.not_eq_true']
    exact beq_eq_false_iff_ne.mpr (fun h => hne (by rw [h]))

theorem mem_updRows {db : DB} {u : Int} {g : Row → Row} {r : Row}
    (h : r ∈ (updRows db u g).submissions) :
    ∃ a ∈ db.submissions, r = if a.user_id == u then g a else a := by
  simp only [updRows, List.mem_map] at h
  obtain ⟨a, ha, h⟩ := h
  exact ⟨a, ha, h.symm⟩

theorem find?_map_upd (l : List Row) (t : Int) (g : Row → Row)
    (hg : ∀ r, (g r).user_id = r.user_id) (u : Int) :
    (l.map (fun r => if r.user_id == t then g r else r)).find? (fun r => r.user_id == u)
      = (l.find? (fun r => r.user_id == u)).map
          (fun r => if r.user_id == t then g r else r) := by
  induction l with
  | nil => rfl
  | cons a l ih =>
    have hhead : ((if a.user_id == t then g a else a).user_id == u) = (a.user_id == u) := by
      by_cases h : (a.user_id == t) = true
      · simp [h, hg]
      · simp [h]
    by_cases hau : (a.user_id == u) = true
    · rw [List.map_cons, List.find?_cons_of_pos _ (by rw [hhead]; exact hau),
        @List.find?_cons_of_pos _ (fun r => r.user_id == u) a l hau, Option.map_some']
    · rw [List.map_cons, List.find?_cons_of_neg _ (by rw [hhead]; exact hau),
        @List.find?_cons_of_neg _ (fun r => r.user_id == u) a l hau, ih]

theorem findRow_updRows (db : DB) (t u : Int) (g : Row → Row)
    (hg : ∀ r, (g r).user_id = r.user_id) :
    findRow (updRows db t g) u
      = (findRow db u).map (fun r => if r.user_id == t then g r else r) :=
  find?_map_upd db.submissions t g hg u

theorem map_if_id {t : Int} {g : Row → Row} (l : List Row)
    (h : ∀ a ∈ l, (a.user_id == t) = false) :
    l.map (fun r => if r.user_id == t then g r else r) = l := by
  induction l with
  | nil => rfl
  | cons a l ih =>
    rw [List.map_cons, if_neg (by simp [h a (List.mem_cons_self a l)]),
      ih (fun b hb => h b (List.mem_cons_of_mem a hb))]

theorem updRows_eq_self {db : DB} {t : Int} {g : Row → Row}
    (h : findRow db t = none) : updRows db t g = db := by
  have h2 : ∀ a ∈ db.submissions, (a.user_id == t) = false := by
    intro a ha
    have := List.find?_eq_none.mp h a ha
    simpa using this
  unfold updRows
  rw [map_if_id db.submissions h2]

theorem rowUniq {db : DB} {u : Int} {r0 a : Row}
    (hone : atMostOne db) (hfind : findRow db u = some r0)
    (ha : a ∈ db.submissions) (hau : (a.user_id == u) = true) : a = r0 := by
  have hfind2 : db.submissions.find? (fun r => r.user_id == u) = some r0 := hfind
  have hr0mem : r0 ∈ db.submissions := List.mem_of_find?_eq_some hfind2
  have hr0u : (r0.user_id == u) = true := by
    have := List.find?_some hfind2
    simpa using this
  exact List.inj_on_of_nodup_map hone ha hr0mem
    (by rw [beq_iff_eq] at hau hr0u; rw [hau, hr0u])

theorem fanOut_snd_nil (msg ppath : String) (btns : List String) (l : List Int) :
    (fanOutOuts [] msg ppath btns l).2 = true := by
  induction l with
  | nil => rfl
  | cons a l ih => simpa [fanOutOuts] using ih

theorem fanOut_mem_nil (msg ppath : String) (btns : List String) (l : List Int)
    (a : Int) (ha : a ∈ l) :
    Out.send a msg [] ∈ (fanOutOuts [] msg ppath btns l).1
      ∧ Out.sendPhoto a ppath btns ∈ (fanOutOuts [] msg ppath btns l).1 := by
  induction l with
  | nil => cases ha
  | cons b l ih =>
    rcases List.mem_cons.mp ha with h | h
    · subst h
      exact ⟨List.mem_cons_self _ _, List.mem_cons_of_mem _ (List.mem_cons_self _ _)⟩
    · have := ih h
      exact ⟨List.mem_cons_of_mem _ (List.mem_cons_of_mem _ this.1),
             List.mem_cons_of_mem _ (List.mem_cons_of_mem _ this.2)⟩

theorem fanOut_sendTargets (fails : List Int) (msg ppath : String)
    (btns : List String) (l : List Int) :
    sendTargets (fanOutOuts fails msg ppath btns l).1
      = l.takeWhile (fun a => !(fails.contains a)) := by
  induction l with
  | nil => rfl
  | cons a l ih =>
    by_cases hm : a ∈ fails
    · simp [fanOutOuts, sendTargets, hm, List.takeWhile_cons]
    · simp only [fanOutOuts, sendTargets, List.takeWhile_cons] at ih ⊢
      simp [hm, List.filterMap_cons, ih]

/-! ## Concrete states used by counterexamples and witnesses -/

/-- A record that has gone through the whole flow up to the admin decision. -/
def rowReady (u : Int) : Row :=
  { user_id := u, platform := some "instagram", account_id := some "http://x.com/a",
    package := some "1000", photo_path := some (accountPhotoPath u),
    payment_screenshot_path := some (paymentPhotoPath u), payment_notified := 1 }

def dbC6 : DB :=
  { submissions := [rowReady 3], platforms := [("Instagram", 1)],
    admins := [(7, none)], pricing := initPricing }

/-! ## Claims -/

/-- C8: cancellation is two-step.  The `/cancel` command changes no state and
shows a confirmation keyboard whose confirm payload `confirm_cancel_<uid>`
embeds the requesting user's own id; the confirm button deletes the record
of `uid` iff the presser's id equals `uid`, and a different presser (e.g.
via a replayed payload) deletes nothing and changes no state. -/
theorem C8_two_step_cancel (cfg : Cfg) (db : DB) (u t : Int) :
    step cfg (Ev.cmd_cancel u) db
      = (db, [Out.reply cancelConfirmMsg [confirmCancelData u, keepOrderData]])
    ∧ step cfg (Ev.button u (CbData.confirm_cancel t)) db
      = (if u = t then (delRows db u, [Out.reply cancelledMsg [], Out.answer ""])
         else (db, [Out.answer ""])) := by
  refine ⟨rfl, ?_⟩
  by_cases h : u = t
  · simp [step, handle_button, h]
  · simp [step, handle_button, h]

/-- C10: a reject button press by an admin whose payload targets a user id
with no record creates no record and changes no stored status (the UPDATE
matches nothing), yet the targeted user is still sent the Payment Rejected
terminal message and the admin still receives the success acknowledgment. -/
theorem C10_reject_without_record (cfg : Cfg) (db : DB) (a t : Int)
    (hadm : isAdminB db a = true) (hnone : findRow db t = none) :
    (step cfg (Ev.button a (CbData.reject t)) db).1 = db
    ∧ (step cfg (Ev.button a (CbData.reject t)) db).2
      = [Out.send t rejectedUserMsg [startOrderData, startOrderData],
         Out.reply (rejectAckMsg t) [], Out.answer ""] := by
  constructor
  · simp only [step, handle_button, hadm, if_true]
    exact updRows_eq_self hnone
  · simp [step, handle_button, hadm]

def dbC10 : DB :=
  { submissions := [], platforms := [], admins := [(7, none)], pricing := initPricing }

theorem C10_witness :
    isAdminB dbC10 7 = true ∧ findRow dbC10 3 = none
    ∧ (step ⟨7, []⟩ (Ev.button 7 (CbData.reject 3)) dbC10).1 = dbC10
    ∧ (step ⟨7, []⟩ (Ev.button 7 (CbData.reject 3)) dbC10).2
      = [Out.send 3 rejectedUserMsg [startOrderData, startOrderData],
         Out.reply (rejectAckMsg 3) [], Out.answer ""] := by
  have h := C10_reject_without_record ⟨7, []⟩ dbC10 7 3 (by decide) (by decide)
  exact ⟨by decide, by decide, h.1, h.2⟩

def cfgC3 : Cfg := ⟨0, []⟩

/-- C3: evaluation of the code at a violating input.  After `/start` the
user has no rows (the start-over deletion works as claimed), but two presses
of a platform-selection button with no `/start` in between leave TWO
submissions rows for the same user: the schema's mistyped `PRIMARY_KEY`
(read by SQLite as a column type, not a constraint) means the `INSERT` in
the `platform_` branch never conflicts, so at-most-one-record-per-user does
not hold. -/
theorem C3_duplicate_records :
    ((run cfgC3 [Ev.cmd_add_platform 0 ["Facebook"], Ev.cmd_start 1]
        (initDB cfgC3)).submissions.countP (fun r => r.user_id == 1) = 0)
    ∧ ((run cfgC3 [Ev.cmd_add_platform 0 ["Facebook"], Ev.cmd_start 1,
          Ev.button 1 (CbData.platformBtn "platform_facebook"),
          Ev.button 1 (CbData.platformBtn "platform_facebook")]
        (initDB cfgC3)).submissions.countP (fun r => r.user_id == 1) = 2) := by
  decide

/-- C6 counterexample: a non-admin (id 5) pressing the approve (or reject)
button for user 3 causes no state mutation — but is NOT answered with an
access-denied message: the payload matches no branch of the elif chain when
`is_admin` is false, so no output at all is produced (the callback is not
even answered). -/
theorem C6_counterexample :
    isAdminB dbC6 5 = false
    ∧ step ⟨7, []⟩ (Ev.button 5 (CbData.approve 3)) dbC6 = (dbC6, [])
    ∧ step ⟨7, []⟩ (Ev.button 5 (CbData.reject 3)) dbC6 = (dbC6, []) := by
  decide

/-- C6 (amended): an approve or reject event mutates the target record's
status (to approved resp. rejected, with the terminal message to the
submitter and the acknowledgment to the admin) only when the caller is in
the Admin Registry at the time of the action; a call by a non-admin causes
no state mutation and is silently ignored — no reply at all is sent (the
source produces no access-denied message on this path). -/
theorem C6_admin_decisions (cfg : Cfg) (db : DB) (u t : Int) :
    (isAdminB db u = false →
      step cfg (Ev.button u (CbData.approve t)) db = (db, [])
      ∧ step cfg (Ev.button u (CbData.reject t)) db = (db, []))
    ∧ (isAdminB db u = true → ∀ r, findRow db t = some r →
      ((step cfg (Ev.button u (CbData.approve t)) db).1
          = updRows db t (fun x => { x with status := "approved" })
        ∧ (step cfg (Ev.button u (CbData.approve t)) db).2
          = [Out.send t (approvedUserMsg r.platform r.package) [startOrderData],
             Out.reply (approveAckMsg t) [], Out.answer ""])
      ∧ ((step cfg (Ev.button u (CbData.reject t)) db).1
          = updRows db t (fun x => { x with status := "rejected" })
        ∧ (step cfg (Ev.button u (CbData.reject t)) db).2
          = [Out.send t rejectedUserMsg [startOrderData, startOrderData],
             Out.reply (rejectAckMsg t) [], Out.answer ""])) := by
  constructor
  · intro h
    constructor <;> simp [step, handle_button, h]
  · intro h r hr
    have hru : (r.user_id == t) = true := by
      have h2 : db.submissions.find? (fun x => x.user_id == t) = some r := hr
      simpa using List.find?_some h2
    have hfr : findRow (updRows db t (fun x => { x with status := "approved" })) t
        = some { r with status := "approved" } := by
      rw [findRow_updRows db t t (fun x => { x with status := "approved" }) (fun x => rfl),
        hr, Option.map_some', if_pos hru]
    refine ⟨⟨?_, ?_⟩, ?_, ?_⟩
    · simp [step, handle_button, h, hfr]
    · simp [step, handle_button, h, hfr]
    · simp [step, handle_button, h]
    · simp [step, handle_button, h]

theorem C6_witness :
    isAdminB dbC6 7 = true
    ∧ findRow dbC6 3 = some (rowReady 3)
    ∧ (step ⟨7, []⟩ (Ev.button 7 (CbData.approve 3)) dbC6).1
        = updRows dbC6 3 (fun x => { x with status := "approved" }) := by
  refine ⟨by decide, by decide, ?_⟩
  exact ((C6_admin_decisions ⟨7, []⟩ dbC6 7 3).2 (by decide) (rowReady 3) (by decide)).1.1

/-- C7: routing of free-text messages.  If the sender has a record with
`platform` set and `account_id` unset, `account_id` is set to the stripped
message text; in every other situation (no record, `account_id` already
set, or even `platform` unset) the message is answered with the
select-a-platform-first notice, is never interpreted as a platform name (no
record is created) and no field changes.  The sanitation hypothesis rules
out records storing the empty string (rather than NULL) in `platform` or
`account_id`; no flow of the program produces those: `platform` comes from
a nonempty catalog name and `account_id` from a stripped message text. -/
theorem C7_text_routing (cfg : Cfg) (db : DB) (u : Int) (body : String)
    (hsan : ∀ r ∈ db.submissions, r.platform ≠ some "" ∧ r.account_id ≠ some "") :
    (∀ r, findRow db u = some r → r.platform.isSome = true → r.account_id = none →
      (step cfg (Ev.text u body) db).1
          = updRows db u (fun x => { x with account_id := some body.trim })
      ∧ (step cfg (Ev.text u body) db).2 = [Out.reply linkSavedMsg [uploadScreenshotData]])
    ∧ (findRow db u = none →
        step cfg (Ev.text u body) db = (db, [Out.reply selectPlatformFirstMsg []]))
    ∧ (∀ r, findRow db u = some r → r.account_id.isSome = true →
        step cfg (Ev.text u body) db = (db, [Out.reply selectPlatformFirstMsg []]))
    ∧ (∀ r, findRow db u = some r → r.platform = none →
        step cfg (Ev.text u body) db = (db, [Out.reply selectPlatformFirstMsg []])) := by
  refine ⟨?_, ?_, ?_, ?_⟩
  · intro r hr hp hacc
    have hmem : r ∈ db.submissions := List.mem_of_find?_eq_some hr
    have h1 : truthy r.platform = true := truthy_isSome hp (hsan r hmem).1
    have h2 : truthy r.account_id = false := by rw [hacc]; rfl
    constructor <;> simp [step, handle_text, hr, h1, h2]
  · intro hr
    simp [step, handle_text, hr]
  · intro r hr hacc
    have hmem : r ∈ db.submissions := List.mem_of_find?_eq_some hr
    have h2 : truthy r.account_id = true := truthy_isSome hacc (hsan r hmem).2
    simp [step, handle_text, hr, h2]
  · intro r hr hp
    have h1 : truthy r.platform = false := by rw [hp]; rfl
    simp [step, handle_text, hr, h1]

def dbC7 : DB :=
  { submissions := [{ user_id := 1, platform := some "instagram" }],
    platforms := [("Instagram", 1)], admins := [(7, none)], pricing := initPricing }

theorem C7_witness :
    (∀ r ∈ dbC7.submissions, r.platform ≠ some "" ∧ r.account_id ≠ some "")
    ∧ findRow dbC7 1 = some { user_id := 1, platform := some "instagram" }
    ∧ (step ⟨7, []⟩ (Ev.text 1 "http://x.com/a") dbC7).1
        = updRows dbC7 1 (fun x => { x with account_id := some (String.trim "http://x.com/a") })
    ∧ (step ⟨7, []⟩ (Ev.text 1 "http://x.com/a") dbC7).2
        = [Out.reply linkSavedMsg [uploadScreenshotData]] := by
  have h := (C7_text_routing ⟨7, []⟩ dbC7 1 "http://x.com/a" (by decide)).1
    { user_id := 1, platform := some "instagram" } (by decide) (by decide) (by decide)
  exact ⟨by decide, by decide, h.1, h.2⟩

/-- C9: `remove_admin` invoked (by an admin, with well-formed arguments)
with the initial admin's id always fails with the cannot-remove report and
leaves the registry unchanged — the guard precedes any table access; every
operation of the program preserves membership of the initial admin id in
the registry; and, since `init_db` seeds that id at startup, it is present
in the registry in every reachable state. -/
theorem C9_initial_admin (cfg : Cfg) :
    (∀ db caller s, isAdminB db caller = true → pyInt s = cfg.initialAdmin →
      pyIsDigit s = true →
      step cfg (Ev.cmd_remove_admin caller [s]) db
        = (db, [Out.reply cannotRemoveInitialMsg []]))
    ∧ (∀ ev db, cfg.initialAdmin ∈ adminIds db →
        cfg.initialAdmin ∈ adminIds (step cfg ev db).1)
    ∧ (∀ db, Reach cfg db → cfg.initialAdmin ∈ adminIds db) := by
  have hpres : ∀ ev db, cfg.initialAdmin ∈ adminIds db →
      cfg.initialAdmin ∈ adminIds (step cfg ev db).1 := by
    intro ev db h
    cases ev with
    | cmd_start uid => simp only [step, start]; split <;> exact h
    | cmd_help uid => exact h
    | cmd_cancel uid => exact h
    | text uid body => simp only [step, handle_text]; split <;> exact h
    | photo uid =>
      simp only [step, handle_photo]
      split
      · exact h
      · split
        · exact h
        · split
          · exact h
          · split <;> exact h
    | button uid d =>
      cases d with
      | start_order => simp only [step, handle_button, start]; split <;> exact h
      | cancel_order => exact h
      | confirm_cancel t => simp only [step, handle_button]; split <;> exact h
      | keep_order => exact h
      | platformBtn data => exact h
      | enter_link_prompt => exact h
      | upload_screenshot_prompt => exact h
      | packageBtn key =>
        simp only [step, handle_button]
        split
        · split <;> exact h
        · exact h
      | upload_payment_prompt => exact h
      | approve t =>
        simp only [step, handle_button]
        split
        · split <;> exact h
        · exact h
      | reject t => simp only [step, handle_button]; split <;> exact h
      | adminPanelBtn w =>
        simp only [step, handle_button]
        split
        · split <;> exact h
        · exact h
    | cmd_admin uid => simp only [step, admin_panel]; split <;> exact h
    | cmd_add_price uid args =>
      simp only [step, add_price]
      split
      · exact h
      · split
        · exact h
        · split <;> exact h
    | cmd_edit_price uid args =>
      simp only [step, edit_price]
      split
      · exact h
      · split
        · exact h
        · split
          · exact h
          · split <;> exact h
    | cmd_delete_price uid args =>
      simp only [step, delete_price]
      split
      · exact h
      · split <;> exact h
    | cmd_update_qr uid args =>
      simp only [step, update_qr]
      split
      · exact h
      · split <;> exact h
    | cmd_toggle_platform uid args =>
      simp only [step, toggle_platform]
      split
      · exact h
      · split <;> exact h
    | cmd_add_platform uid args =>
      simp only [step, add_platform]
      split
      · exact h
      · split <;> exact h
    | cmd_edit_platform uid args =>
      simp only [step, edit_platform]
      split
      · exact h
      · split
        · exact h
        · split <;> exact h
    | cmd_delete_platform uid args =>
      simp only [step, delete_platform]
      split
      · exact h
      · split
        · exact h
        · split <;> exact h
    | cmd_add_admin uid args =>
      simp only [step, add_admin]
      split
      · exact h
      · split
        · exact h
        · simp only [adminIds, List.map_append]
          exact List.mem_append_left _ h
    | cmd_remove_admin uid args =>
      simp only [step, remove_admin]
      split
      · exact h
      · split
        · exact h
        · split
          · exact h
          · split
            · exact h
            · rename_i hcond hempty
              simp only [adminIds, List.mem_map] at h ⊢
              obtain ⟨a, ha, hai⟩ := h
              refine ⟨a, List.mem_filter.mpr ⟨ha, ?_⟩, hai⟩
              simp only [Bool.not_eq_true']
              apply beq_eq_false_iff_ne.mpr
              intro heq
              exact hcond (by rw [← heq, hai]; exact beq_self_eq_true _)
  refine ⟨?_, hpres, ?_⟩
  · intro db caller s hadm hp hd
    simp [step, remove_admin, hadm, hd, hp]
  · intro db hr
    induction hr with
    | init => simp [adminIds, initDB]
    | next ev db2 hr2 ih => exact hpres ev db2 ih

def dbC2 : DB :=
  { submissions := [{ user_id := 1, platform := some "instagram" }],
    platforms := [("Instagram", 1)], admins := [(7, none)], pricing := initPricing }

/-- C2 counterexample: from a store satisfying the spec's left-to-right
invariant (one record with only `platform` set), a package-selection button
press sets `package` on the record even though its account photo has not
been uploaded — the `package_` branch runs its UPDATE with no guard on
`photo_path` — so the resulting record violates "package only if
account_photo_ref is set". -/
theorem C2_counterexample :
    (∀ r ∈ dbC2.submissions, rowLeftToRight r)
    ∧ ¬(∀ r ∈ (step ⟨7, []⟩ (Ev.button 1 (CbData.packageBtn "500")) dbC2).1.submissions,
        rowLeftToRight r) := by
  constructor
  · decide
  · decide

/-- C2 (amended): assuming at most one record per user (the intended
PRIMARY KEY — see C3 for why the store itself does not enforce it), every
operation of the program preserves the ordering the code maintains: every
record has `platform` set, `photo_path` only if `account_id` is set, and
`payment_screenshot_path` only if both `package` and `account_id` are set.
The edge "package only if account_photo_ref" of the claimed invariant is
NOT preserved: the package-selection press writes `package` on any
existing record (see the counterexample). -/
theorem C2_ordering (cfg : Cfg) (ev : Ev) (db : DB)
    (hone : atMostOne db)
    (hwf : ∀ r ∈ db.submissions, rowWF r) :
    ∀ r ∈ (step cfg ev db).1.submissions, rowWF r := by
  have hfil : ∀ (p : Row → Bool), ∀ r ∈ db.submissions.filter p, rowWF r :=
    fun p r hr => hwf r (List.mem_of_mem_filter hr)
  cases ev with
  | cmd_start uid =>
    simp only [step, start]
    split <;> exact hfil _
  | cmd_help uid => exact hwf
  | cmd_cancel uid => exact hwf
  | text uid body =>
    simp only [step, handle_text]
    split
    · intro r hr
      obtain ⟨a, ha, rfl⟩ := mem_updRows hr
      by_cases hau : (a.user_id == uid) = true
      · rw [if_pos hau]
        obtain ⟨w1, w2, w3⟩ := hwf a ha
        exact ⟨w1, fun _ => rfl, fun hp => ⟨(w3 hp).1, rfl⟩⟩
      · rw [if_neg hau]; exact hwf a ha
    · exact hwf
  | photo uid =>
    rcases hf : findRow db uid with _ | r0
    · simp only [step, handle_photo, hf]; exact hwf
    · simp only [step, handle_photo, hf]
      by_cases hacc : r0.account_id = none
      · rw [if_pos hacc]; exact hwf
      rw [if_neg hacc]
      by_cases hpk : r0.package = none
      · rw [if_pos hpk]
        intro r hr
        obtain ⟨a, ha, rfl⟩ := mem_updRows hr
        by_cases hau : (a.user_id == uid) = true
        · rw [if_pos hau]
          obtain ⟨w1, w2, w3⟩ := hwf a ha
          have har : a = r0 := rowUniq hone hf ha hau
          refine ⟨w1, fun _ => ?_, fun hp => w3 hp⟩
          show a.account_id.isSome = true
          rw [har]
          exact Option.isSome_iff_ne_none.mpr hacc
        · rw [if_neg hau]; exact hwf a ha
      · rw [if_neg hpk]
        split
        · intro r hr
          obtain ⟨a, ha, rfl⟩ := mem_updRows hr
          by_cases hau : (a.user_id == uid) = true
          · rw [if_pos hau]
            obtain ⟨w1, w2, w3⟩ := hwf a ha
            have har : a = r0 := rowUniq hone hf ha hau
            refine ⟨w1, w2, fun _ => ⟨?_, ?_⟩⟩
            · show a.package.isSome = true
              rw [har]
              exact Option.isSome_iff_ne_none.mpr hpk
            · show a.account_id.isSome = true
              rw [har]
              exact Option.isSome_iff_ne_none.mpr hacc
          · rw [if_neg hau]; exact hwf a ha
        · exact hwf
  | button uid d =>
    cases d with
    | start_order =>
      simp only [step, handle_button, start]
      split <;> exact hfil _
    | cancel_order => exact hwf
    | confirm_cancel t =>
      simp only [step, handle_button]
      split
      · exact hfil _
      · exact hwf
    | keep_order => exact hwf
    | platformBtn data =>
      intro r hr
      rcases List.mem_append.mp hr with h | h
      · exact hwf r h
      · rcases List.mem_singleton.mp h with rfl
        exact ⟨rfl, fun hp => by simp at hp, fun hp => by simp at hp⟩
    | enter_link_prompt => exact hwf
    | upload_screenshot_prompt => exact hwf
    | packageBtn key =>
      have hupd : ∀ r ∈ (updRows db uid
          (fun x => { x with package := some key })).submissions, rowWF r := by
        intro r hr
        obtain ⟨a, ha, rfl⟩ := mem_updRows hr
        by_cases hau : (a.user_id == uid) = true
        · rw [if_pos hau]
          obtain ⟨w1, w2, w3⟩ := hwf a ha
          exact ⟨w1, w2, fun hp => ⟨rfl, (w3 hp).2⟩⟩
        · rw [if_neg hau]; exact hwf a ha
      simp only [step, handle_button]
      split
      · split <;> exact hupd
      · exact hwf
    | upload_payment_prompt => exact hwf
    | approve t =>
      have hupd : ∀ r ∈ (updRows db t
          (fun x => { x with status := "approved" })).submissions, rowWF r := by
        intro r hr
        obtain ⟨a, ha, rfl⟩ := mem_updRows hr
        by_cases hau : (a.user_id == t) = true
        · rw [if_pos hau]; exact hwf a ha
        · rw [if_neg hau]; exact hwf a ha
      simp only [step, handle_button]
      split
      · split <;> exact hupd
      · exact hwf
    | reject t =>
      simp only [step, handle_button]
      split
      · intro r hr
        obtain ⟨a, ha, rfl⟩ := mem_updRows hr
        by_cases hau : (a.user_id == t) = true
        · rw [if_pos hau]; exact hwf a ha
        · rw [if_neg hau]; exact hwf a ha
      · exact hwf
    | adminPanelBtn w =>
      simp only [step, handle_button]
      split
      · split <;> exact hwf
      · exact hwf
  | cmd_admin uid =>
    simp only [step, admin_panel]
    split <;> exact hwf
  | cmd_add_price uid args =>
    simp only [step, add_price]
    split
    · exact hwf
    · split
      · exact hwf
      · split <;> exact hwf
  | cmd_edit_price uid args =>
    simp only [step, edit_price]
    split
    · exact hwf
    · split
      · exact hwf
      · split
        · exact hwf
        · split <;> exact hwf
  | cmd_delete_price uid args =>
    simp only [step, delete_price]
    split
    · exact hwf
    · split <;> exact hwf
  | cmd_update_qr uid args =>
    simp only [step, update_qr]
    split
    · exact hwf
    · split <;> exact hwf
  | cmd_toggle_platform uid args =>
    simp only [step, toggle_platform]
    split
    · exact hwf
    · split <;> exact hwf
  | cmd_add_platform uid args =>
    simp only [step, add_platform]
    split
    · exact hwf
    · split <;> exact hwf
  | cmd_edit_platform uid args =>
    simp only [step, edit_platform]
    split
    · exact hwf
    · split
      · exact hwf
      · split
        · exact hwf
        · intro r hr
          simp only [List.mem_map] at hr
          obtain ⟨a, ha, rfl⟩ := hr
          obtain ⟨w1, w2, w3⟩ := hwf a ha
          by_cases hp : (a.platform == some (pyJoin " " args.dropLast)) = true
          · rw [if_pos hp]
            exact ⟨rfl, w2, w3⟩
          · rw [if_neg hp]
            exact ⟨w1, w2, w3⟩
  | cmd_delete_platform uid args =>
    simp only [step, delete_platform]
    split
    · exact hwf
    · split
      · exact hwf
      · split
        · exact hwf
        · exact hfil _
  | cmd_add_admin uid args =>
    simp only [step, add_admin]
    split
    · exact hwf
    · split <;> exact hwf
  | cmd_remove_admin uid args =>
    simp only [step, remove_admin]
    split
    · exact hwf
    · split
      · exact hwf
      · split
        · exact hwf
        · split <;> exact hwf

theorem C2_witness :
    atMostOne dbC2
    ∧ (∀ r ∈ dbC2.submissions, rowWF r)
    ∧ (∀ r ∈ (step ⟨7, []⟩ (Ev.text 1 "http://x.com/a") dbC2).1.submissions, rowWF r) := by
  refine ⟨by decide, by decide, ?_⟩
  exact C2_ordering ⟨7, []⟩ (Ev.text 1 "http://x.com/a") dbC2 (by decide) (by decide)

def rowC5 : Row :=
  { user_id := 9, platform := some "instagram", account_id := some "http://x.com/a",
    package := some "1000", photo_path := some (accountPhotoPath 9) }

def dbC5 : DB :=
  { submissions := [rowC5], platforms := [("Instagram", 1)],
    admins := [(1, none), (2, none), (3, none)], pricing := initPricing }

def cfgC5 : Cfg := ⟨1, [2]⟩

/-- C5 counterexample: with admin registry [1, 2, 3] and delivery to admin 2
raising, admin 3 — to whom delivery would succeed — receives nothing: only
admin 1 is notified, so a failure for one admin does prevent the review
notification from reaching the remaining admins.  (The user acknowledgment,
sent before the loop, is still emitted.) -/
theorem C5_counterexample :
    ((3 : Int) ∈ adminIds dbC5)
    ∧ (cfgC5.failingAdmins.contains 3 = false)
    ∧ sendTargets (step cfgC5 (Ev.photo 9) dbC5).2 = [1]
    ∧ (step cfgC5 (Ev.photo 9) dbC5).2.head? = some (Out.reply paymentAckMsg []) := by
  decide

/-- C5 (amended): during the admin fan-out for a newly received payment
screenshot, the record mutation (committed before the loop) and the user
acknowledgment (sent before the loop) survive any delivery failure; the
admins actually notified, however, are exactly those strictly preceding the
first failing admin in registry order — the loop body has no per-recipient
error handling, so one failure aborts delivery to every later admin. -/
theorem C5_fanout_abort (cfg : Cfg) (db : DB) (u : Int) (r : Row) (pk : String)
    (hfind : findRow db u = some r)
    (hacc : r.account_id.isSome = true)
    (hpk : r.package = some pk) (hpkne : pk ≠ "")
    (hpay : r.payment_screenshot_path = none) (hnot : r.payment_notified = 0) :
    ((step cfg (Ev.photo u) db).2.head? = some (Out.reply paymentAckMsg []))
    ∧ (step cfg (Ev.photo u) db).1
        = updRows db u (fun x =>
            { x with payment_screenshot_path := some (paymentPhotoPath u),
                     payment_notified := 1 })
    ∧ sendTargets (step cfg (Ev.photo u) db).2
        = (adminIds db).takeWhile (fun a => !(cfg.failingAdmins.contains a)) := by
  have hne : ¬(r.account_id = none) := Option.isSome_iff_ne_none.mp hacc
  have hpkne2 : r.package ≠ some "" := by rw [hpk]; simpa using hpkne
  have htruthy : truthy r.package = true := truthy_isSome (by rw [hpk]; rfl) hpkne2
  have hpknn : ¬(r.package = none) := by rw [hpk]; simp
  have hstep : step cfg (Ev.photo u) db
      = (updRows db u (fun x =>
            { x with payment_screenshot_path := some (paymentPhotoPath u),
                     payment_notified := 1 }),
         Out.reply paymentAckMsg []
           :: (fanOutOuts cfg.failingAdmins (adminReviewMsg u r) (paymentPhotoPath u)
                [approveData u, rejectData u] (adminIds db)).1
           ++ (if (fanOutOuts cfg.failingAdmins (adminReviewMsg u r) (paymentPhotoPath u)
                [approveData u, rejectData u] (adminIds db)).2 then []
               else [Out.errNotice u])) := by
    simp [step, handle_photo, hfind, hne, hpknn, htruthy, hpay, hnot]
  refine ⟨by rw [hstep]; rfl, by rw [hstep], ?_⟩
  rw [hstep]
  simp only [sendTargets, List.filterMap_cons, List.filterMap_append]
  have htail : List.filterMap
      (fun o => match o with | Out.send c _ _ => some c | _ => none)
      (if (fanOutOuts cfg.failingAdmins (adminReviewMsg u r) (paymentPhotoPath u)
            [approveData u, rejectData u] (adminIds db)).2 then []
       else [Out.errNotice u]) = [] := by
    split <;> rfl
  rw [htail, List.append_nil]
  exact fanOut_sendTargets cfg.failingAdmins (adminReviewMsg u r) (paymentPhotoPath u)
    [approveData u, rejectData u] (adminIds db)

theorem C5_witness :
    findRow dbC5 9 = some rowC5
    ∧ rowC5.account_id.isSome = true
    ∧ rowC5.package = some "1000"
    ∧ "1000" ≠ ""
    ∧ rowC5.payment_screenshot_path = none
    ∧ rowC5.payment_notified = 0
    ∧ sendTargets (step cfgC5 (Ev.photo 9) dbC5).2
        = (adminIds dbC5).takeWhile (fun a => !(cfgC5.failingAdmins.contains a)) := by
  have h := C5_fanout_abort cfgC5 dbC5 9 rowC5 "1000" (by decide) (by decide)
    (by decide) (by decide) (by decide) (by decide)
  exact ⟨by decide, by decide, by decide, by decide, by decide, by decide, h.2.2⟩

def dbC1x : DB :=
  { submissions := [{ user_id := 1, platform := some "instagram", package := some "500" }],
    platforms := [("Instagram", 1)], admins := [(7, none)], pricing := initPricing }

/-- C1 counterexample: user 1's record has `package` set, no payment
screenshot and `payment_notified = 0` — the claim's premise — yet the photo
message stores nothing, notifies no admin, and is answered with the
complete-previous-steps notice rather than the claimed review flow:
`account_id` is NULL (the package button was pressed straight after
platform selection, which the claim does not exclude), and `handle_photo`
rejects any photo while `account_id` is NULL. -/
theorem C1_counterexample :
    (∃ r, findRow dbC1x 1 = some r ∧ r.package = some "500"
      ∧ r.payment_screenshot_path = none ∧ r.payment_notified = 0)
    ∧ step ⟨7, []⟩ (Ev.photo 1) dbC1x = (dbC1x, [Out.reply completeStepsMsg []])
    ∧ sendTargets (step ⟨7, []⟩ (Ev.photo 1) dbC1x).2 = [] := by
  exact ⟨⟨_, rfl, rfl, rfl, rfl⟩, by decide, by decide⟩

/-- C1 (amended): for every photo message from a user whose record has
`package` set (nonempty) AND `account_id` set: if `payment_screenshot_path`
is unset and `payment_notified` is 0, the image reference is stored,
`payment_notified` becomes 1, the user is acknowledged, and one review
message plus the payment image goes to every admin in the registry; if the
screenshot is already set or `payment_notified` is nonzero, the store is
left completely unchanged and the user is answered with the
already-submitted restart prompt.  Hence over any sequence of duplicate
photo uploads the fan-out fires exactly once: after the first upload the
state is a fixed point of further photo events, each of which produces only
the restart prompt, and the stored payment reference is never overwritten.
(Amendment: the original claim lacked the `account_id`-set hypothesis;
with `package` set but `account_id` NULL the code rejects the photo and no
fan-out ever fires — see the counterexample.) -/
theorem C1_payment_once (cfg : Cfg) (db : DB) (u : Int) (r : Row) (pk : String)
    (hfail : cfg.failingAdmins = [])
    (hfind : findRow db u = some r)
    (hacc : r.account_id.isSome = true)
    (hpk : r.package = some pk) (hpkne : pk ≠ "") :
    (r.payment_screenshot_path = none → r.payment_notified = 0 →
      (step cfg (Ev.photo u) db).1
        = updRows db u (fun x =>
            { x with payment_screenshot_path := some (paymentPhotoPath u),
                     payment_notified := 1 })
      ∧ (step cfg (Ev.photo u) db).2.head? = some (Out.reply paymentAckMsg [])
      ∧ (∀ a ∈ adminIds db,
          Out.send a (adminReviewMsg u r) [] ∈ (step cfg (Ev.photo u) db).2
          ∧ Out.sendPhoto a (paymentPhotoPath u) [approveData u, rejectData u]
              ∈ (step cfg (Ev.photo u) db).2)
      ∧ (∀ n, iterPhoto cfg u n (step cfg (Ev.photo u) db).1 = (step cfg (Ev.photo u) db).1)
      ∧ step cfg (Ev.photo u) (step cfg (Ev.photo u) db).1
          = ((step cfg (Ev.photo u) db).1,
             [Out.reply alreadySubmittedMsg [startOrderData]]))
    ∧ (r.payment_screenshot_path ≠ none ∨ r.payment_notified ≠ 0 →
        step cfg (Ev.photo u) db = (db, [Out.reply alreadySubmittedMsg [startOrderData]])) := by
  have hne : ¬(r.account_id = none) := Option.isSome_iff_ne_none.mp hacc
  have hpkne2 : r.package ≠ some "" := by rw [hpk]; simpa using hpkne
  have htruthy : truthy r.package = true := truthy_isSome (by rw [hpk]; rfl) hpkne2
  have hpknn : ¬(r.package = none) := by rw [hpk]; simp
  have hru : (r.user_id == u) = true := by
    have h2 : db.submissions.find? (fun x => x.user_id == u) = some r := hfind
    simpa using List.find?_some h2
  constructor
  · intro hpay hnot
    have hstep : step cfg (Ev.photo u) db
        = (updRows db u (fun x =>
              { x with payment_screenshot_path := some (paymentPhotoPath u),
                       payment_notified := 1 }),
           Out.reply paymentAckMsg []
             :: (fanOutOuts cfg.failingAdmins (adminReviewMsg u r) (paymentPhotoPath u)
                  [approveData u, rejectData u] (adminIds db)).1
             ++ (if (fanOutOuts cfg.failingAdmins (adminReviewMsg u r) (paymentPhotoPath u)
                  [approveData u, rejectData u] (adminIds db)).2 then []
                 else [Out.errNotice u])) := by
      simp [step, handle_photo, hfind, hne, hpknn, htruthy, hpay, hnot]
    have hfind1 : findRow (updRows db u (fun x =>
            { x with payment_screenshot_path := some (paymentPhotoPath u),
                     payment_notified := 1 })) u
        = some { r with payment_screenshot_path := some (paymentPhotoPath u),
                        payment_notified := 1 } := by
      rw [findRow_updRows db u u (fun x =>
            { x with payment_screenshot_path := some (paymentPhotoPath u),
                     payment_notified := 1 }) (fun x => rfl), hfind,
        Option.map_some', if_pos hru]
    have hstep2a : step cfg (Ev.photo u) (updRows db u (fun x =>
            { x with payment_screenshot_path := some (paymentPhotoPath u),
                     payment_notified := 1 }))
        = (updRows db u (fun x =>
            { x with payment_screenshot_path := some (paymentPhotoPath u),
                     payment_notified := 1 }),
           [Out.reply alreadySubmittedMsg [startOrderData]]) := by
      simp [step, handle_photo, hfind1, hne, hpknn, htruthy]
    have hst1 : (step cfg (Ev.photo u) db).1
        = updRows db u (fun x =>
            { x with payment_screenshot_path := some (paymentPhotoPath u),
                     payment_notified := 1 }) := by rw [hstep]
    have hstep2 : step cfg (Ev.photo u) (step cfg (Ev.photo u) db).1
        = ((step cfg (Ev.photo u) db).1,
           [Out.reply alreadySubmittedMsg [startOrderData]]) := by
      rw [hst1]
      exact hstep2a
    refine ⟨hst1, by rw [hstep]; rfl, ?_, ?_, hstep2⟩
    · intro a ha
      rw [hstep, hfail]
      have hmem := fanOut_mem_nil (adminReviewMsg u r) (paymentPhotoPath u)
        [approveData u, rejectData u] (adminIds db) a ha
      rw [fanOut_snd_nil, if_pos rfl, List.append_nil]
      exact ⟨List.mem_cons_of_mem _ hmem.1, List.mem_cons_of_mem _ hmem.2⟩
    · intro n
      induction n with
      | zero => rfl
      | succ n ih =>
        show iterPhoto cfg u n (step cfg (Ev.photo u) (step cfg (Ev.photo u) db).1).1
          = (step cfg (Ev.photo u) db).1
        rw [hstep2]
        exact ih
  · intro hdup
    have hcond : ¬((truthy r.package = true ∧ r.payment_screenshot_path = none)
        ∧ r.payment_notified = 0) := by
      rcases hdup with h | h
      · exact fun hc => h hc.1.2
      · exact fun hc => h hc.2
    simp [step, handle_photo, hfind, hne, hpknn, hcond]

def rowC1w : Row :=
  { user_id := 4, platform := some "instagram", account_id := some "http://x.com/a",
    package := some "1000", photo_path := some (accountPhotoPath 4) }

def dbC1w : DB :=
  { submissions := [rowC1w], platforms := [("Instagram", 1)],
    admins := [(7, none)], pricing := initPricing }

theorem C1_witness :
    (Cfg.mk 7 []).failingAdmins = []
    ∧ findRow dbC1w 4 = some rowC1w
    ∧ rowC1w.account_id.isSome = true
    ∧ rowC1w.package = some "1000"
    ∧ "1000" ≠ ""
    ∧ rowC1w.payment_screenshot_path = none
    ∧ rowC1w.payment_notified = 0
    ∧ (step ⟨7, []⟩ (Ev.photo 4) dbC1w).1
        = updRows dbC1w 4 (fun x =>
            { x with payment_screenshot_path := some (paymentPhotoPath 4),
                     payment_notified := 1 })
    ∧ step ⟨7, []⟩ (Ev.photo 4) (step ⟨7, []⟩ (Ev.photo 4) dbC1w).1
        = ((step ⟨7, []⟩ (Ev.photo 4) dbC1w).1,
           [Out.reply alreadySubmittedMsg [startOrderData]]) := by
  have h := (C1_payment_once ⟨7, []⟩ dbC1w 4 rowC1w "1000" (by decide) (by decide)
    (by decide) (by decide) (by decide)).1 (by decide) (by decide)
  exact ⟨by decide, by decide, by decide, by decide, by decide, by decide, by decide,
    h.1, h.2.2.2.2⟩

def dbC4 : DB :=
  { submissions := [], platforms := [("Facebook", 1)], admins := [(7, none)],
    pricing := initPricing }

/-- C4 counterexample: the start keyboard for catalog entry "Facebook"
carries the lowercased payload `platform_facebook`, so the record created by
pressing it stores platform "facebook".  Taking P = "facebook" — the exact
value of that record's platform field — `delete_platform P` answers
not-found (the catalog holds "Facebook"; SQLite string equality is
case-sensitive), deletes NO catalog row and NO record: a record whose
platform equals P survives the delete, contradicting the claim for this P.
For the same reason `edit_platform "Facebook" "Fb"` renames the catalog but
can never touch button-created records. -/
theorem C4_counterexample :
    (start dbC4 1).2 = [Out.send 1 welcomeMsg ["platform_facebook"]]
    ∧ (∃ r ∈ (run ⟨7, []⟩ [Ev.button 1 (CbData.platformBtn "platform_facebook"),
          Ev.cmd_delete_platform 7 ["facebook"]] dbC4).submissions,
        r.platform = some "facebook")
    ∧ (run ⟨7, []⟩ [Ev.button 1 (CbData.platformBtn "platform_facebook"),
          Ev.cmd_delete_platform 7 ["facebook"]] dbC4).platforms = [("Facebook", 1)] := by
  refine ⟨by decide, by decide, by decide⟩

/-- C4 (amended): when P is present in the platform catalog the cascades
hold with exact string matching: edit_platform [P, N] renames every catalog
row named P to N and rewrites every record whose platform field equals P to
N, leaving records whose platform differs (such as the lowercased names the
platform-selection button writes when the catalog name is not already all
lowercase) untouched; delete_platform [P] removes every catalog row named P
and deletes exactly the records whose platform equals P.  When P is absent
from the catalog, both commands answer not-found and touch no record even
if records reference P — see the counterexample. -/
theorem C4_cascades (cfg : Cfg) (db : DB) (caller : Int) (oldN newN : String)
    (hadm : isAdminB db caller = true)
    (hmem : oldN ∈ db.platforms.map (fun p => p.1)) :
    (∀ r ∈ db.submissions, r.platform = some oldN →
      { r with platform := some newN }
        ∈ (step cfg (Ev.cmd_edit_platform caller [oldN, newN]) db).1.submissions)
    ∧ (∀ r ∈ db.submissions, r.platform ≠ some oldN →
        r ∈ (step cfg (Ev.cmd_edit_platform caller [oldN, newN]) db).1.submissions)
    ∧ (oldN ≠ newN →
        ∀ r ∈ (step cfg (Ev.cmd_edit_platform caller [oldN, newN]) db).1.submissions,
          r.platform ≠ some oldN)
    ∧ (oldN ≠ newN →
        oldN ∉ (step cfg (Ev.cmd_edit_platform caller [oldN, newN]) db).1.platforms.map
          (fun p => p.1))
    ∧ (∀ r ∈ (step cfg (Ev.cmd_delete_platform caller [oldN]) db).1.submissions,
        r.platform ≠ some oldN)
    ∧ (∀ r ∈ db.submissions, r.platform ≠ some oldN →
        r ∈ (step cfg (Ev.cmd_delete_platform caller [oldN]) db).1.submissions)
    ∧ (oldN ∉ (step cfg (Ev.cmd_delete_platform caller [oldN]) db).1.platforms.map
        (fun p => p.1)) := by
  obtain ⟨p0, hp0, hp0n⟩ := List.mem_map.mp hmem
  have hmemf : p0 ∈ db.platforms.filter (fun p => p.1 == oldN) :=
    List.mem_filter.mpr ⟨hp0, by rw [hp0n]; exact beq_self_eq_true _⟩
  have hne : ((db.platforms.filter (fun p => p.1 == oldN)).isEmpty) = false := by
    rcases hfe : db.platforms.filter (fun p => p.1 == oldN) with _ | ⟨x, xs⟩
    · rw [hfe] at hmemf
      cases hmemf
    · rw [hfe]
      rfl
  have hedit : step cfg (Ev.cmd_edit_platform caller [oldN, newN]) db
      = ({ db with
            platforms := db.platforms.map (fun p => if p.1 == oldN then (newN, p.2) else p),
            submissions := db.submissions.map (fun r =>
              if r.platform == some oldN then { r with platform := some newN } else r) },
         [Out.reply ("Edited platform: " ++ oldN ++ " to " ++ newN) []]) := by
    simp [step, edit_platform, hadm, hne, pyJoin, List.dropLast, List.getLastD]
  have hdel : step cfg (Ev.cmd_delete_platform caller [oldN]) db
      = ({ db with
            platforms := db.platforms.filter (fun p => !(p.1 == oldN)),
            submissions := db.submissions.filter (fun r => !(r.platform == some oldN)) },
         [Out.reply ("Deleted platform: " ++ oldN) []]) := by
    simp [step, delete_platform, hadm, hne, pyJoin]
  refine ⟨?_, ?_, ?_, ?_, ?_, ?_, ?_⟩
  · intro r hr hrp
    rw [hedit]
    exact List.mem_map.mpr ⟨r, hr, by rw [if_pos (by rw [hrp]; exact beq_self_eq_true _)]⟩
  · intro r hr hrp
    rw [hedit]
    exact List.mem_map.mpr ⟨r, hr, by rw [if_neg (by simp [hrp])]⟩
  · intro hnn r hr
    rw [hedit] at hr
    obtain ⟨a, ha, rfl⟩ := List.mem_map.mp hr
    by_cases hc : (a.platform == some oldN) = true
    · rw [if_pos hc]
      intro hcontra
      have : newN = oldN := by
        have h2 : some newN = some oldN := hcontra
        exact Option.some.inj h2
      exact hnn this.symm
    · rw [if_neg hc]
      intro hcontra
      exact hc (by rw [hcontra]; exact beq_self_eq_true _)
  · intro hnn hmem2
    rw [hedit] at hmem2
    obtain ⟨q, hq, hqn⟩ := List.mem_map.mp hmem2
    obtain ⟨a, ha, rfl⟩ := List.mem_map.mp hq
    by_cases hc : (a.1 == oldN) = true
    · rw [if_pos hc] at hqn
      exact hnn hqn.symm
    · rw [if_neg hc] at hqn
      exact hc (by rw [hqn]; exact beq_self_eq_true _)
  · intro r hr
    rw [hdel] at hr
    have h2 := (List.mem_filter.mp hr).2
    intro hcontra
    rw [hcontra] at h2
    simp at h2
  · intro r hr hrp
    rw [hdel]
    exact List.mem_filter.mpr ⟨hr, by simp [hrp]⟩
  · intro hmem2
    rw [hdel] at hmem2
    obtain ⟨q, hq, hqn⟩ := List.mem_map.mp hmem2
    have h2 := (List.mem_filter.mp hq).2
    rw [hqn] at h2
    simp at h2

def rowC4 : Row := { user_id := 1, platform := some "facebook" }

def dbC4w : DB :=
  { submissions := [rowC4], platforms := [("facebook", 1)], admins := [(7, none)],
    pricing := initPricing }

theorem C4_witness :
    isAdminB dbC4w 7 = true
    ∧ "facebook" ∈ dbC4w.platforms.map (fun p => p.1)
    ∧ ({ rowC4 with platform := some "Fb" }
        ∈ (step ⟨7, []⟩ (Ev.cmd_edit_platform 7 ["facebook", "Fb"]) dbC4w).1.submissions)
    ∧ (∀ r ∈ (step ⟨7, []⟩ (Ev.cmd_delete_platform 7 ["facebook"]) dbC4w).1.submissions,
        r.platform ≠ some "facebook") := by
  have h := C4_cascades ⟨7, []⟩ dbC4w 7 "facebook" "Fb" (by decide) (by decide)
  exact ⟨by decide, by decide, h.1 rowC4 (by decide) (by decide), h.2.2.2.2.1⟩

theorem C9_witness :
    isAdminB (initDB ⟨7, []⟩) 7 = true
    ∧ pyInt "7" = (Cfg.mk 7 []).initialAdmin
    ∧ pyIsDigit "7" = true
    ∧ step ⟨7, []⟩ (Ev.cmd_remove_admin 7 ["7"]) (initDB ⟨7, []⟩)
        = (initDB ⟨7, []⟩, [Out.reply cannotRemoveInitialMsg []])
    ∧ (7 : Int) ∈ adminIds (initDB ⟨7, []⟩) := by
  refine ⟨by decide, by decide, by decide, ?_, ?_⟩
  · exact (C9_initial_admin ⟨7, []⟩).1 (initDB ⟨7, []⟩) 7 "7" (by decide) (by decide) (by decide)
  · exact (C9_initial_admin ⟨7, []⟩).2.2 (initDB ⟨7, []⟩) Reach.init

end Boost
